import Mathlib

/-!
Verification of the Interview Practice Simulator session engine.

The repository contains two variants of the application:
* `src/updateapp.py` (the "upd" variant): stratified quota-based question
  selection, browser video recording, 7-column CSV export.
* `src/unnamed/part_000` (the "cloud" variant, `app_cloud (1).py`):
  shuffle-and-truncate selection, wall-clock practice timer, 6-column CSV
  export, built-in default question fallback.

Python functions are embedded shallowly: randomness (`random.sample`,
`random.shuffle`) is modelled by oracle functions quantified over all
functions satisfying the library's contract; file IO is modelled as an
association list from file names to parsed contents; clock readings are
explicit rational-number arguments.
-/

namespace InterviewSim

/-- A catalog entry, as read from `questions.json` (both variants).
Fields mirror the JSON keys: `id`, `category`, `category_name`,
`question`, `type` (one of "typed" / "video" / "both"), optional `tips`. -/
structure Question where
  id : String
  category : String
  category_name : String
  question : String
  type : String
  tips : Option String
deriving DecidableEq, Repr

/-- The two built-in fallback questions of `get_default_questions`
(cloud variant, part_000 lines 141-150). -/
def get_default_questions : List Question :=
  [{ id := "A1", category := "A", category_name := "Personal & Motivation",
     question := "Tell us about yourself and what interests you about working in retail.",
     type := "both",
     tips := some "Keep it professional. Mention your interests and why retail appeals to you." },
   { id := "B1", category := "B", category_name := "Customer Service",
     question := "What does excellent customer service mean to you?",
     type := "both",
     tips := some "Think about making customers feel valued and solving their problems." }]

/-- Outcome of attempting to open and parse `questions.json`: the file was
found (yielding `data['questions']`), missing (`FileNotFoundError`), or
failed in some other way (permission error, malformed JSON, ...). -/
inductive FileReadResult where
  | found (questions : List Question)
  | notFound
  | unreadable (msg : String)
deriving DecidableEq, Repr

/-- `load_questions` of `src/updateapp.py` (lines 148-156): returns the
parsed questions; on `FileNotFoundError` it shows an error banner and
returns the empty list; any other exception propagates. -/
def load_questions_upd : FileReadResult → Except String (List Question)
  | .found qs => .ok qs
  | .notFound => .ok []
  | .unreadable m => .error m

/-- `load_questions` of the cloud variant (part_000 lines 130-139): on
`FileNotFoundError` it falls back to `get_default_questions`; any other
exception propagates. -/
def load_questions_cloud : FileReadResult → Except String (List Question)
  | .found qs => .ok qs
  | .notFound => .ok get_default_questions
  | .unreadable m => .error m

/-! ### Question selection -/

/-- Typed-eligible pool: `[q for q in all_questions if q['type'] in ['typed', 'both']]`. -/
def typed_eligible (all_questions : List Question) : List Question :=
  all_questions.filter (fun q => q.type = "typed" ∨ q.type = "both")

/-- Video-eligible pool: `[q for q in all_questions if q['type'] in ['video', 'both']]`. -/
def video_eligible (all_questions : List Question) : List Question :=
  all_questions.filter (fun q => q.type = "video" ∨ q.type = "both")

/-- `group_by_category` (updateapp lines 164-171) builds a dict from
category to the questions of that category, preserving order; looking a
category up in it is the same as filtering the pool by that category. -/
def group_by_category (questions : List Question) (cat : String) : List Question :=
  questions.filter (fun q => q.category = cat)

/-- One iteration of the quota loops of `select_session_questions`
(updateapp lines 183-195): skip the category if it has no pool entry,
otherwise draw `min(quota, len(available))` questions from the pool
members whose ids are not yet used, and mark the drawn ids used.  The
`sample` oracle stands for `random.sample`; the `Nat` component of the
accumulator counts oracle calls so that distinct calls are independent. -/
def draw_step (sample : Nat → List Question → Nat → List Question)
    (byCat : String → List Question)
    (acc : List Question × List String × Nat) (cq : String × Nat) :
    List Question × List String × Nat :=
  if byCat cq.1 = [] then acc
  else
    let available := (byCat cq.1).filter (fun q => ¬ q.id ∈ acc.2.1)
    let chosen := sample acc.2.2 available (min cq.2 available.length)
    (acc.1 ++ chosen, (acc.2.1 ++ chosen.map (fun q => q.id), acc.2.2 + 1))

/-- The whole `for category, quota in quotas.items()` loop. -/
def draw_quotas (sample : Nat → List Question → Nat → List Question)
    (byCat : String → List Question) (quotas : List (String × Nat))
    (init : List Question × List String × Nat) :
    List Question × List String × Nat :=
  quotas.foldl (draw_step sample byCat) init

/-- `select_session_questions` of `src/updateapp.py` (lines 159-203), with
the two hard-coded quota dicts generalised to parameters (the source fixes
`typed_quotas = {'A': 2, 'B': 1, 'C': 1, 'D': 1}` and
`video_quotas = {'A': 1, 'B': 2, 'C': 1, 'D': 1}`).  `sample` models
`random.sample`; `shuffleT` and `shuffleV` model the two `random.shuffle`
calls.  The `used_ids` set is shared between the typed and video loops. -/
def select_with_quotas (sample : Nat → List Question → Nat → List Question)
    (shuffleT shuffleV : List Question → List Question)
    (typed_quotas video_quotas : List (String × Nat))
    (all_questions : List Question) (typed_count video_count : Nat) :
    List Question × List Question :=
  let typed_by_cat := group_by_category (typed_eligible all_questions)
  let video_by_cat := group_by_category (video_eligible all_questions)
  let rT := draw_quotas sample typed_by_cat typed_quotas ([], [], 0)
  let rV := draw_quotas sample video_by_cat video_quotas ([], rT.2.1, rT.2.2)
  ((shuffleT rT.1).take typed_count, (shuffleV rV.1).take video_count)

/-- `select_session_questions` of `src/updateapp.py` with its hard-coded
quotas and default counts `typed_count=5, video_count=5`. -/
def select_session_questions (sample : Nat → List Question → Nat → List Question)
    (shuffleT shuffleV : List Question → List Question)
    (all_questions : List Question)
    (typed_count : Nat := 5) (video_count : Nat := 5) :
    List Question × List Question :=
  select_with_quotas sample shuffleT shuffleV
    [("A", 2), ("B", 1), ("C", 1), ("D", 1)]
    [("A", 1), ("B", 2), ("C", 1), ("D", 1)]
    all_questions typed_count video_count

/-- `select_session_questions` of the cloud variant (part_000 lines
153-168): shuffle both eligible pools, take the first `typed_count` typed
questions, then take the first `video_count` video-eligible questions
whose ids were not already taken for the typed list. -/
def select_session_questions_cloud (shuffleT shuffleV : List Question → List Question)
    (all_questions : List Question)
    (typed_count : Nat := 5) (video_count : Nat := 5) :
    List Question × List Question :=
  let selected_typed := (shuffleT (typed_eligible all_questions)).take typed_count
  let used_ids := selected_typed.map (fun q => q.id)
  let selected_video :=
    ((shuffleV (video_eligible all_questions)).filter (fun q => ¬ q.id ∈ used_ids)).take video_count
  (selected_typed, selected_video)

/-- Contract of `random.sample(population, k)` (always called with
`k ≤ len(population)`): the result has exactly `k` elements, all drawn
from the population.  The first argument is the call counter. -/
def SampleOK (sample : Nat → List Question → Nat → List Question) : Prop :=
  ∀ n l k, k ≤ l.length →
    (sample n l k).length = k ∧ ∀ q ∈ sample n l k, q ∈ l

/-- Contract of `random.shuffle`: the output is a permutation of the input. -/
def ShuffleOK (shuffle : List Question → List Question) : Prop :=
  ∀ l, (shuffle l).Perm l

/-- A sample oracle that deterministically takes the first `k` questions;
it satisfies `random.sample`'s contract. -/
def take_sample (n : Nat) (l : List Question) (k : Nat) : List Question :=
  let _ := n
  l.take k

theorem take_sample_ok : SampleOK take_sample := by
  intro n l k hk
  refine ⟨?_, ?_⟩
  · simpa [take_sample] using Nat.min_eq_left hk
  · intro q hq
    exact List.take_subset _ _ hq

theorem id_shuffle_ok : ShuffleOK (fun l => l) := fun l => List.Perm.refl l

/-! Invariants of the quota loop. -/

/-- The `used_ids` set only grows across the quota loop. -/
theorem draw_quotas_used_mono (sample : Nat → List Question → Nat → List Question)
    (byCat : String → List Question) (quotas : List (String × Nat)) :
    ∀ init : List Question × List String × Nat,
      ∀ id ∈ init.2.1, id ∈ (draw_quotas sample byCat quotas init).2.1 := by
  induction quotas with
  | nil => intro init id hid; exact hid
  | cons cq rest ih =>
    intro init id hid
    have hstep : id ∈ (draw_step sample byCat init cq).2.1 := by
      unfold draw_step
      by_cases h : byCat cq.1 = []
      · simpa [h] using hid
      · simp only [h, if_neg, ite_false]
        exact List.mem_append_left _ hid
    simpa [draw_quotas, List.foldl_cons] using ih (draw_step sample byCat init cq) id hstep

/-- Every question selected by the quota loop has its id recorded in the
final `used_ids` set (provided this already held of the accumulator). -/
theorem draw_quotas_sel_ids_used (sample : Nat → List Question → Nat → List Question)
    (byCat : String → List Question) (quotas : List (String × Nat)) :
    ∀ init : List Question × List String × Nat,
      (∀ q ∈ init.1, q.id ∈ init.2.1) →
      ∀ q ∈ (draw_quotas sample byCat quotas init).1,
        q.id ∈ (draw_quotas sample byCat quotas init).2.1 := by
  induction quotas with
  | nil => intro init h q hq; exact h q hq
  | cons cq rest ih =>
    intro init h q hq
    have hstep : ∀ r ∈ (draw_step sample byCat init cq).1,
        r.id ∈ (draw_step sample byCat init cq).2.1 := by
      intro r hr
      unfold draw_step at hr ⊢
      by_cases hc : byCat cq.1 = []
      · simp only [hc, ite_true] at hr ⊢
        exact h r hr
      · simp only [hc, ite_false] at hr ⊢
        rcases List.mem_append.mp hr with hr | hr
        · exact List.mem_append_left _ (h r hr)
        · exact List.mem_append_right _ (List.mem_map_of_mem _ hr)
    simp only [draw_quotas, List.foldl_cons] at hq ⊢
    exact ih (draw_step sample byCat init cq) hstep q hq

/-- Questions selected by the quota loop avoid any id set that was already
contained in the accumulator's `used_ids` (this is what makes the video
draw avoid the typed draw's ids). -/
theorem draw_quotas_sel_avoids (sample : Nat → List Question → Nat → List Question)
    (hs : SampleOK sample) (byCat : String → List Question)
    (used₀ : List String) (quotas : List (String × Nat)) :
    ∀ init : List Question × List String × Nat,
      (∀ id ∈ used₀, id ∈ init.2.1) →
      (∀ q ∈ init.1, q.id ∉ used₀) →
      ∀ q ∈ (draw_quotas sample byCat quotas init).1, q.id ∉ used₀ := by
  induction quotas with
  | nil => intro init _ h q hq; exact h q hq
  | cons cq rest ih =>
    intro init hsub h q hq
    simp only [draw_quotas, List.foldl_cons] at hq
    refine ih (draw_step sample byCat init cq) ?_ ?_ q hq
    · intro id hid
      unfold draw_step
      by_cases hc : byCat cq.1 = []
      · simpa [hc] using hsub id hid
      · simp only [hc, ite_false]
        exact List.mem_append_left _ (hsub id hid)
    · intro r hr
      unfold draw_step at hr
      by_cases hc : byCat cq.1 = []
      · simp only [hc, ite_true] at hr
        exact h r hr
      · simp only [hc, ite_false] at hr
        rcases List.mem_append.mp hr with hr | hr
        · exact h r hr
        · -- `r` was drawn from the pool filtered to exclude `init.2.1 ⊇ used₀`
          have havail := (hs init.2.2
              ((byCat cq.1).filter (fun q => ¬ q.id ∈ init.2.1))
              (min cq.2 ((byCat cq.1).filter (fun q => ¬ q.id ∈ init.2.1)).length)
              (Nat.min_le_right _ _)).2 r hr
          have : ¬ r.id ∈ init.2.1 := by
            have := List.mem_filter.mp havail
            simpa using this.2
          intro hmem
          exact this (hsub r.id hmem)

/-- C1: for every catalog and every quota configuration, the question
selection returns typed and video sequences that are disjoint by question
id — in the quota-based selector of `updateapp.py` (stated for arbitrary
quota lists, covering its hard-coded quotas) and in the shuffle-truncate
selector of the cloud variant — for every behaviour of `random.sample` and
`random.shuffle` satisfying their contracts. -/
theorem c1_selection_disjoint_by_id
    (sample : Nat → List Question → Nat → List Question) (hs : SampleOK sample)
    (shuffleT shuffleV : List Question → List Question)
    (hT : ShuffleOK shuffleT) (hV : ShuffleOK shuffleV)
    (typed_quotas video_quotas : List (String × Nat))
    (all_questions : List Question) (typed_count video_count : Nat) :
    (∀ qt ∈ (select_with_quotas sample shuffleT shuffleV typed_quotas video_quotas
        all_questions typed_count video_count).1,
      ∀ qv ∈ (select_with_quotas sample shuffleT shuffleV typed_quotas video_quotas
        all_questions typed_count video_count).2, qt.id ≠ qv.id) ∧
    (∀ qt ∈ (select_session_questions_cloud shuffleT shuffleV
        all_questions typed_count video_count).1,
      ∀ qv ∈ (select_session_questions_cloud shuffleT shuffleV
        all_questions typed_count video_count).2, qt.id ≠ qv.id) := by
  constructor
  · intro qt hqt qv hqv
    simp only [select_with_quotas] at hqt hqv
    set byCatT := group_by_category (typed_eligible all_questions) with hbT
    set byCatV := group_by_category (video_eligible all_questions) with hbV
    set rT := draw_quotas sample byCatT typed_quotas ([], [], 0) with hrT
    set rV := draw_quotas sample byCatV video_quotas ([], rT.2.1, rT.2.2) with hrV
    have hqt' : qt ∈ rT.1 :=
      ((hT rT.1).mem_iff).mp (List.take_subset _ _ hqt)
    have hqv' : qv ∈ rV.1 :=
      ((hV rV.1).mem_iff).mp (List.take_subset _ _ hqv)
    have htid : qt.id ∈ rT.2.1 := by
      refine draw_quotas_sel_ids_used sample byCatT typed_quotas ([], [], 0) ?_ qt ?_
      · intro q hq; exact absurd hq (List.not_mem_nil q)
      · exact hqt'
    have hvid : qv.id ∉ rT.2.1 := by
      refine draw_quotas_sel_avoids sample hs byCatV rT.2.1 video_quotas
        ([], rT.2.1, rT.2.2) (fun id hid => hid) ?_ qv hqv'
      intro q hq; exact absurd hq (List.not_mem_nil q)
    intro h
    exact hvid (h ▸ htid)
  · intro qt hqt qv hqv
    simp only [select_session_questions_cloud] at hqt hqv
    have hvfilter := List.mem_filter.mp (List.take_subset _ _ hqv)
    have hnot : ¬ qv.id ∈ ((shuffleT (typed_eligible all_questions)).take typed_count).map
        (fun q => q.id) := by simpa using hvfilter.2
    intro h
    exact hnot (h ▸ List.mem_map_of_mem (fun q => q.id) hqt)

/-- Concrete witness for C1: a three-question catalog (two `both`
questions in categories A and B and one video-only question in category
A), the deterministic take-first sample oracle and the identity shuffle.
The quota selector picks typed `[qA, qB]` and video `[qC]`; the cloud
selector on the same catalog picks typed `[qA, qB]` and video `[qC]`;
their ids differ as the theorem demands. -/
theorem c1_selection_disjoint_by_id_witness :
    (⟨"A1", "A", "Personal", "QA", "both", none⟩ : Question) ∈
      (select_session_questions take_sample (fun l => l) (fun l => l)
        [⟨"A1", "A", "Personal", "QA", "both", none⟩,
         ⟨"B1", "B", "Service", "QB", "both", none⟩,
         ⟨"A2", "A", "Personal", "QC", "video", none⟩]).1 ∧
    (⟨"A2", "A", "Personal", "QC", "video", none⟩ : Question) ∈
      (select_session_questions take_sample (fun l => l) (fun l => l)
        [⟨"A1", "A", "Personal", "QA", "both", none⟩,
         ⟨"B1", "B", "Service", "QB", "both", none⟩,
         ⟨"A2", "A", "Personal", "QC", "video", none⟩]).2 ∧
    ("A1" : String) ≠ "A2" := by
  refine ⟨by decide, by decide, ?_⟩
  exact (c1_selection_disjoint_by_id take_sample take_sample_ok
      (fun l => l) (fun l => l) id_shuffle_ok id_shuffle_ok
      [("A", 2), ("B", 1), ("C", 1), ("D", 1)]
      [("A", 1), ("B", 2), ("C", 1), ("D", 1)]
      [⟨"A1", "A", "Personal", "QA", "both", none⟩,
       ⟨"B1", "B", "Service", "QB", "both", none⟩,
       ⟨"A2", "A", "Personal", "QC", "video", none⟩] 5 5).1
    ⟨"A1", "A", "Personal", "QA", "both", none⟩ (by decide)
    ⟨"A2", "A", "Personal", "QC", "video", none⟩ (by decide)

/-- Unfolding of one quota-loop iteration when the category's pool is
non-empty and none of its ids were drawn earlier. -/
theorem draw_step_eq (sample : Nat → List Question → Nat → List Question)
    (byCat : String → List Question) (acc : List Question × List String × Nat)
    (cq : String × Nat) (hne : byCat cq.1 ≠ [])
    (hfree : ∀ q ∈ byCat cq.1, ¬ q.id ∈ acc.2.1) :
    draw_step sample byCat acc cq =
      (acc.1 ++ sample acc.2.2 (byCat cq.1) (min cq.2 (byCat cq.1).length),
       (acc.2.1 ++ (sample acc.2.2 (byCat cq.1)
          (min cq.2 (byCat cq.1).length)).map (fun q => q.id),
        acc.2.2 + 1)) := by
  unfold draw_step
  rw [if_neg hne]
  have hfilter : (byCat cq.1).filter (fun q => ¬ q.id ∈ acc.2.1) = byCat cq.1 :=
    List.filter_eq_self.mpr (fun a ha => by simpa using hfree a ha)
  rw [hfilter]

/-- Two distinct category pools of the typed-eligible groups never share a
question id when the catalog's ids are unique. -/
theorem group_ids_distinct (qs : List Question)
    (hinj : ∀ a ∈ qs, ∀ b ∈ qs, a.id = b.id → a = b)
    {c c' : String} (hcc : c ≠ c') {q q' : Question}
    (hq : q ∈ group_by_category (typed_eligible qs) c)
    (hq' : q' ∈ group_by_category (typed_eligible qs) c') :
    q.id ≠ q'.id := by
  have h1 := List.mem_filter.mp hq
  have h2 := List.mem_filter.mp hq'
  have hqcat : q.category = c := by simpa using h1.2
  have hq'cat : q'.category = c' := by simpa using h2.2
  have hqs : q ∈ qs := (List.mem_filter.mp h1.1).1
  have hq's : q' ∈ qs := (List.mem_filter.mp h2.1).1
  intro h
  exact hcc (by rw [← hqcat, hinj q hqs q' hq's h, hq'cat])

/-- C2: on a catalog whose typed-eligible pool has exactly two questions
in each of the four categories A-D with unique ids, `updateapp.py`'s
selector (typed quotas {A:2, B:1, C:1, D:1}, `typed_count = 5`) returns
exactly 5 typed questions covering all four categories, for every
behaviour of `random.sample` and `random.shuffle` satisfying their
contracts: the per-category quota draws happen before the shuffle and the
truncation, so categorical coverage is guaranteed. -/
theorem c2_typed_quota_coverage
    (sample : Nat → List Question → Nat → List Question) (hs : SampleOK sample)
    (shuffleT shuffleV : List Question → List Question) (hT : ShuffleOK shuffleT)
    (qs : List Question)
    (hinj : ∀ a ∈ qs, ∀ b ∈ qs, a.id = b.id → a = b)
    (hA : (group_by_category (typed_eligible qs) "A").length = 2)
    (hB : (group_by_category (typed_eligible qs) "B").length = 2)
    (hC : (group_by_category (typed_eligible qs) "C").length = 2)
    (hD : (group_by_category (typed_eligible qs) "D").length = 2) :
    (select_session_questions sample shuffleT shuffleV qs).1.length = 5 ∧
    (∃ q ∈ (select_session_questions sample shuffleT shuffleV qs).1, q.category = "A") ∧
    (∃ q ∈ (select_session_questions sample shuffleT shuffleV qs).1, q.category = "B") ∧
    (∃ q ∈ (select_session_questions sample shuffleT shuffleV qs).1, q.category = "C") ∧
    (∃ q ∈ (select_session_questions sample shuffleT shuffleV qs).1, q.category = "D") := by
  simp only [select_session_questions, select_with_quotas]
  set byCat := group_by_category (typed_eligible qs) with hbyCat
  -- pools are non-empty
  have hAne : byCat "A" ≠ [] := by intro h; rw [h] at hA; simp at hA
  have hBne : byCat "B" ≠ [] := by intro h; rw [h] at hB; simp at hB
  have hCne : byCat "C" ≠ [] := by intro h; rw [h] at hC; simp at hC
  have hDne : byCat "D" ≠ [] := by intro h; rw [h] at hD; simp at hD
  -- ids drawn from one category never collide with another category's pool
  have hnotin : ∀ (c c' : String), c ≠ c' → ∀ (ch : List Question),
      (∀ r ∈ ch, r ∈ byCat c') →
      ∀ q ∈ byCat c, ¬ q.id ∈ ch.map (fun r => r.id) := by
    intro c c' hcc ch hch q hq hmem
    obtain ⟨r, hr, hrid⟩ := List.mem_map.mp hmem
    exact group_ids_distinct qs hinj hcc hq (hch r hr) hrid.symm
  -- the four draws
  set ch0 := sample 0 (byCat "A") (min 2 (byCat "A").length) with hch0def
  set ch1 := sample 1 (byCat "B") (min 1 (byCat "B").length) with hch1def
  set ch2 := sample 2 (byCat "C") (min 1 (byCat "C").length) with hch2def
  set ch3 := sample 3 (byCat "D") (min 1 (byCat "D").length) with hch3def
  have hs0 := hs 0 (byCat "A") (min 2 (byCat "A").length) (Nat.min_le_right _ _)
  have hs1 := hs 1 (byCat "B") (min 1 (byCat "B").length) (Nat.min_le_right _ _)
  have hs2 := hs 2 (byCat "C") (min 1 (byCat "C").length) (Nat.min_le_right _ _)
  have hs3 := hs 3 (byCat "D") (min 1 (byCat "D").length) (Nat.min_le_right _ _)
  have hch0len : ch0.length = 2 := by rw [hs0.1, hA]; decide
  have hch1len : ch1.length = 1 := by rw [hs1.1, hB]; decide
  have hch2len : ch2.length = 1 := by rw [hs2.1, hC]; decide
  have hch3len : ch3.length = 1 := by rw [hs3.1, hD]; decide
  -- unfold the quota loop step by step
  have e1 : draw_step sample byCat ([], [], 0) ("A", 2) =
      (ch0, (ch0.map (fun q => q.id), 1)) := by
    rw [draw_step_eq sample byCat ([], [], 0) ("A", 2) hAne
      (by intro q hq; simp)]
    simp
  have e2 : draw_step sample byCat (ch0, (ch0.map (fun q => q.id), 1)) ("B", 1) =
      (ch0 ++ ch1, (ch0.map (fun q => q.id) ++ ch1.map (fun q => q.id), 2)) := by
    rw [draw_step_eq sample byCat (ch0, (ch0.map (fun q => q.id), 1)) ("B", 1) hBne
      (by intro q hq; exact hnotin "B" "A" (by decide) ch0 hs0.2 q hq)]
  have e3 : draw_step sample byCat
      (ch0 ++ ch1, (ch0.map (fun q => q.id) ++ ch1.map (fun q => q.id), 2)) ("C", 1) =
      (ch0 ++ ch1 ++ ch2,
       (ch0.map (fun q => q.id) ++ ch1.map (fun q => q.id) ++ ch2.map (fun q => q.id), 3)) := by
    rw [draw_step_eq sample byCat
      (ch0 ++ ch1, (ch0.map (fun q => q.id) ++ ch1.map (fun q => q.id), 2)) ("C", 1) hCne ?_]
    intro q hq
    simp only [List.mem_append]
    rintro (h | h)
    · exact hnotin "C" "A" (by decide) ch0 hs0.2 q hq h
    · exact hnotin "C" "B" (by decide) ch1 hs1.2 q hq h
  have e4 : draw_step sample byCat
      (ch0 ++ ch1 ++ ch2,
       (ch0.map (fun q => q.id) ++ ch1.map (fun q => q.id) ++ ch2.map (fun q => q.id), 3))
      ("D", 1) =
      (ch0 ++ ch1 ++ ch2 ++ ch3,
       (ch0.map (fun q => q.id) ++ ch1.map (fun q => q.id) ++ ch2.map (fun q => q.id)
          ++ ch3.map (fun q => q.id), 4)) := by
    rw [draw_step_eq sample byCat
      (ch0 ++ ch1 ++ ch2,
       (ch0.map (fun q => q.id) ++ ch1.map (fun q => q.id) ++ ch2.map (fun q => q.id), 3))
      ("D", 1) hDne ?_]
    intro q hq
    simp only [List.mem_append]
    rintro ((h | h) | h)
    · exact hnotin "D" "A" (by decide) ch0 hs0.2 q hq h
    · exact hnotin "D" "B" (by decide) ch1 hs1.2 q hq h
    · exact hnotin "D" "C" (by decide) ch2 hs2.2 q hq h
  have hfold : draw_quotas sample byCat [("A", 2), ("B", 1), ("C", 1), ("D", 1)]
      ([], [], 0) =
      (ch0 ++ ch1 ++ ch2 ++ ch3,
       (ch0.map (fun q => q.id) ++ ch1.map (fun q => q.id) ++ ch2.map (fun q => q.id)
          ++ ch3.map (fun q => q.id), 4)) := by
    simp only [draw_quotas, List.foldl_cons, List.foldl_nil]
    rw [e1, e2, e3, e4]
  rw [hfold]
  -- the concatenation has exactly 5 questions, so the shuffled list is
  -- returned whole by `take 5`
  have hlen : (ch0 ++ ch1 ++ ch2 ++ ch3).length = 5 := by
    simp [hch0len, hch1len, hch2len, hch3len]
  have hslen : (shuffleT (ch0 ++ ch1 ++ ch2 ++ ch3)).length = 5 := by
    rw [(hT (ch0 ++ ch1 ++ ch2 ++ ch3)).length_eq, hlen]
  have htake : (shuffleT (ch0 ++ ch1 ++ ch2 ++ ch3)).take 5 =
      shuffleT (ch0 ++ ch1 ++ ch2 ++ ch3) :=
    List.take_of_length_le (le_of_eq hslen)
  have hmem : ∀ q : Question, q ∈ ch0 ++ ch1 ++ ch2 ++ ch3 →
      q ∈ (shuffleT (ch0 ++ ch1 ++ ch2 ++ ch3)).take 5 := by
    intro q hq
    rw [htake]
    exact (hT (ch0 ++ ch1 ++ ch2 ++ ch3)).mem_iff.mpr hq
  have hcat : ∀ (c : String) (q : Question), q ∈ byCat c → q.category = c := by
    intro c q hq
    have := List.mem_filter.mp hq
    simpa using this.2
  have hne0 : ch0 ≠ [] := by intro h; rw [h] at hch0len; simp at hch0len
  have hne1 : ch1 ≠ [] := by intro h; rw [h] at hch1len; simp at hch1len
  have hne2 : ch2 ≠ [] := by intro h; rw [h] at hch2len; simp at hch2len
  have hne3 : ch3 ≠ [] := by intro h; rw [h] at hch3len; simp at hch3len
  obtain ⟨q0, hq0⟩ := List.exists_mem_of_ne_nil ch0 hne0
  obtain ⟨q1, hq1⟩ := List.exists_mem_of_ne_nil ch1 hne1
  obtain ⟨q2, hq2⟩ := List.exists_mem_of_ne_nil ch2 hne2
  obtain ⟨q3, hq3⟩ := List.exists_mem_of_ne_nil ch3 hne3
  refine ⟨by rw [htake, hslen], ?_, ?_, ?_, ?_⟩
  · exact ⟨q0, hmem q0 (by simp [hq0]), hcat "A" q0 (hs0.2 q0 hq0)⟩
  · exact ⟨q1, hmem q1 (by simp [hq1]), hcat "B" q1 (hs1.2 q1 hq1)⟩
  · exact ⟨q2, hmem q2 (by simp [hq2]), hcat "C" q2 (hs2.2 q2 hq2)⟩
  · exact ⟨q3, hmem q3 (by simp [hq3]), hcat "D" q3 (hs3.2 q3 hq3)⟩

/-- An 8-question catalog with two typed-eligible questions in each of the
four categories A-D, used to witness the C2 scenario. -/
def c2_catalog : List Question :=
  [⟨"A1", "A", "Personal", "QA1", "typed", none⟩,
   ⟨"A2", "A", "Personal", "QA2", "typed", none⟩,
   ⟨"B1", "B", "Service", "QB1", "typed", none⟩,
   ⟨"B2", "B", "Service", "QB2", "typed", none⟩,
   ⟨"C1", "C", "Teamwork", "QC1", "typed", none⟩,
   ⟨"C2", "C", "Teamwork", "QC2", "typed", none⟩,
   ⟨"D1", "D", "Situations", "QD1", "typed", none⟩,
   ⟨"D2", "D", "Situations", "QD2", "typed", none⟩]

/-- Concrete witness for C2: on `c2_catalog`, with the deterministic
take-first sample oracle and the identity shuffle, the typed selection has
exactly 5 questions. -/
theorem c2_typed_quota_coverage_witness :
    (select_session_questions take_sample (fun l => l) (fun l => l) c2_catalog).1.length = 5 :=
  (c2_typed_quota_coverage take_sample take_sample_ok (fun l => l) (fun l => l)
    id_shuffle_ok c2_catalog (by decide) (by decide) (by decide) (by decide) (by decide)).1

/-! ### Session state machine -/

/-- One typed response dict, as appended by `show_typed_questions`.
`timestamp` is present in the updateapp variant and absent in the cloud
variant; `ai_feedback` is present only when an API key was configured. -/
structure TypedResponse where
  question_id : String
  question : String
  response : String
  word_count : Nat
  timestamp : Option String
  ai_feedback : Option String
deriving DecidableEq, Repr

/-- One video response dict, as appended by `show_video_questions`. -/
structure VideoResponse where
  question_id : String
  question : String
  notes : String
  timestamp : Option String
deriving DecidableEq, Repr

/-- The `st.session_state` keys `show_student_welcome` initialises
(updateapp lines 694-712): phase, student name/id, optional API key,
session id, response cursor, the response accumulators and the selected
question sets. -/
structure SessionState where
  phase : String
  student_name : String
  student_id : String
  api_key : Option String
  session_id : String
  current_question : Nat
  typed_responses : List TypedResponse
  video_responses : List VideoResponse
  ai_feedback : List String
  session_questions : List Question × List Question
deriving DecidableEq, Repr

/-- The start-session action of `show_student_welcome` (updateapp lines
694-712).  The button is rendered with `disabled=not name`, so the click
can only happen when `name` is Python-truthy, i.e. a non-empty string;
whitespace-only names are truthy and therefore accepted.  When the click
happens, the full session state is initialised with phase `typed` and
cursor zero; otherwise the prior state is untouched.  `api_key` is the
value stored (`api_key if enable_ai else None`); `questions` is the
`select_session_questions(load_questions())` result. -/
def start_practice_session (name student_id : String) (api_key : Option String)
    (now_ts : String) (questions : List Question × List Question)
    (prior : Option SessionState) : Option SessionState :=
  if name = "" then prior
  else some {
    phase := "typed", student_name := name, student_id := student_id,
    api_key := api_key, session_id := now_ts, current_question := 0,
    typed_responses := [], video_responses := [], ai_feedback := [],
    session_questions := questions }

/-- Outcome of the `try` body of `get_ai_feedback` (updateapp lines
259-294): the Anthropic call succeeded, the `anthropic` import failed
(`ImportError`), or any other exception was raised (`Exception as e`). -/
inductive FeedbackAttempt where
  | success (text : String)
  | importError
  | apiError (msg : String)
deriving DecidableEq, Repr

/-- `get_ai_feedback` of `src/updateapp.py` (lines 259-294): every failure
of the feedback call is caught and converted into a human-readable
placeholder string; the function is total and never propagates an
exception. -/
def get_ai_feedback : FeedbackAttempt → String
  | .success t => t
  | .importError =>
      "⚠️ AI feedback requires the \x27anthropic\x27 package. Install with: pip install anthropic"
  | .apiError e => "⚠️ Could not generate AI feedback: " ++ e

/-- Python's `str.split()` with no separator: maximal runs of
non-whitespace characters. -/
def py_split_words (s : String) : List String :=
  (s.split Char.isWhitespace).filter (fun t => ¬ t = "")

/-- `word_count = len(response.split()) if response else 0`. -/
def py_word_count (response : String) : Nat :=
  if response = "" then 0 else (py_split_words response).length

/-- Python's `str.strip()` on a character list: drop whitespace from both
ends. -/
def py_strip_chars (l : List Char) : List Char :=
  ((l.dropWhile Char.isWhitespace).reverse.dropWhile Char.isWhitespace).reverse

/-- Python's `str.strip()`. -/
def py_strip (s : String) : String := String.mk (py_strip_chars s.data)

/-- The `response_data` dict built on submission (updateapp lines 760-776
and 784-799): the base record snapshots the question, and the
`ai_feedback` key is added only when an API key is configured. -/
def typed_response_data (question : Question) (response now_iso : String)
    (api_key : Option String) (attempt : FeedbackAttempt) : TypedResponse :=
  let base : TypedResponse :=
    { question_id := question.id, question := question.question,
      response := response, word_count := py_word_count response,
      timestamp := some now_iso, ai_feedback := none }
  match api_key with
  | some _ => { base with ai_feedback := some (get_ai_feedback attempt) }
  | none => base

/-- The typed-answer submission of `show_typed_questions` (updateapp lines
715-804).  The two buttons are rendered with `disabled=not
response.strip()`, so the click requires a non-blank answer; the page body
only runs when the cursor is in range.  On submission a response dict is
built, AI feedback is attached when an API key is configured (via
`get_ai_feedback`, which never raises), the dict is appended to
`typed_responses`, and either the cursor advances or the phase moves to
`video_intro` with the cursor reset. -/
def submit_typed_answer (st : SessionState) (response : String) (now_iso : String)
    (attempt : FeedbackAttempt) : SessionState :=
  if h : st.current_question < st.session_questions.1.length then
    if py_strip response = "" then st
    else
      let response_data :=
        typed_response_data (st.session_questions.1.get ⟨st.current_question, h⟩)
          response now_iso st.api_key attempt
      if st.current_question < st.session_questions.1.length - 1 then
        { st with typed_responses := st.typed_responses ++ [response_data],
                  current_question := st.current_question + 1 }
      else
        { st with typed_responses := st.typed_responses ++ [response_data],
                  phase := "video_intro", current_question := 0 }
  else st

/-- C3 counterexample: the start button is only disabled for the empty
string (`disabled=not name`), so the whitespace-only name `" "` is
accepted and a full session state with phase `typed` is created — the
claim that every whitespace-only name is rejected is false on the code. -/
theorem c3_whitespace_name_accepted :
    Option.map (fun st => st.phase)
      (start_practice_session " " "" none "20250101_120000" ([], []) none)
      = some "typed" := by
  decide

/-- C3 amended: the welcome → typed transition is rejected exactly for the
empty name (Python truthiness), leaving any prior state untouched; every
non-empty name — including whitespace-only ones — starts a session with
phase `typed`, cursor zero, empty response lists and the selected
question set. -/
theorem c3_empty_name_rejected (name student_id : String) (api_key : Option String)
    (now_ts : String) (questions : List Question × List Question)
    (prior : Option SessionState) :
    (name = "" →
      start_practice_session name student_id api_key now_ts questions prior = prior) ∧
    (name ≠ "" →
      ∃ st, start_practice_session name student_id api_key now_ts questions prior
          = some st ∧
        st.phase = "typed" ∧ st.current_question = 0 ∧ st.typed_responses = [] ∧
        st.video_responses = [] ∧ st.student_name = name ∧
        st.session_questions = questions) := by
  constructor
  · intro h
    simp [start_practice_session, h]
  · intro h
    refine ⟨{ phase := "typed", student_name := name, student_id := student_id,
              api_key := api_key, session_id := now_ts, current_question := 0,
              typed_responses := [], video_responses := [], ai_feedback := [],
              session_questions := questions },
      ?_, rfl, rfl, rfl, rfl, rfl, rfl⟩
    simp [start_practice_session, h]

/-- Concrete witness for the amended C3: the name `"Alex"` is non-empty
and starts a session. -/
theorem c3_empty_name_rejected_witness :
    ("Alex" : String) ≠ "" ∧
    (start_practice_session "Alex" "" none "ts" ([], []) none).isSome = true := by
  refine ⟨by decide, ?_⟩
  obtain ⟨st, hst, -⟩ :=
    (c3_empty_name_rejected "Alex" "" none "ts" ([], []) none).2 (by decide)
  rw [hst]
  rfl

/-- C6: feedback acquisition never blocks an answer submission.  For every
feedback outcome (success, `ImportError`, any other exception) the
submission appends exactly one response record and advances the cursor or
the phase; when no API key is configured the record has no feedback field;
when one is configured the feedback field holds `get_ai_feedback`'s
result, which on failure is one of the two human-readable placeholder
strings (the embedding of `get_ai_feedback` is total, reflecting that both
`except` clauses catch the exception instead of re-raising). -/
theorem c6_feedback_never_blocks_submission (st : SessionState) (response : String)
    (now_iso : String) (attempt : FeedbackAttempt)
    (hidx : st.current_question < st.session_questions.1.length)
    (hresp : ¬ py_strip response = "") :
    ∃ rec : TypedResponse,
      (submit_typed_answer st response now_iso attempt).typed_responses
          = st.typed_responses ++ [rec] ∧
      (st.api_key = none → rec.ai_feedback = none) ∧
      (∀ k, st.api_key = some k → rec.ai_feedback = some (get_ai_feedback attempt)) ∧
      get_ai_feedback FeedbackAttempt.importError
          = "⚠️ AI feedback requires the \x27anthropic\x27 package. Install with: pip install anthropic" ∧
      (∀ m, get_ai_feedback (FeedbackAttempt.apiError m)
          = "⚠️ Could not generate AI feedback: " ++ m) ∧
      (st.current_question < st.session_questions.1.length - 1 →
        (submit_typed_answer st response now_iso attempt).phase = st.phase ∧
        (submit_typed_answer st response now_iso attempt).current_question
            = st.current_question + 1) ∧
      (¬ st.current_question < st.session_questions.1.length - 1 →
        (submit_typed_answer st response now_iso attempt).phase = "video_intro" ∧
        (submit_typed_answer st response now_iso attempt).current_question = 0) := by
  refine ⟨typed_response_data (st.session_questions.1.get ⟨st.current_question, hidx⟩)
      response now_iso st.api_key attempt, ?_, ?_, ?_, rfl, fun m => rfl, ?_, ?_⟩
  · unfold submit_typed_answer
    rw [dif_pos hidx, if_neg hresp]
    by_cases hlt : st.current_question < st.session_questions.1.length - 1 <;>
      simp [hlt]
  · intro h
    simp [typed_response_data, h]
  · intro k hk
    simp [typed_response_data, hk]
  · intro hlt
    unfold submit_typed_answer
    rw [dif_pos hidx, if_neg hresp]
    simp [hlt]
  · intro hlt
    unfold submit_typed_answer
    rw [dif_pos hidx, if_neg hresp]
    simp [hlt]

/-- Concrete session state for the C6 witness: one typed question, no API
key, cursor at zero. -/
def c6_state : SessionState :=
  { phase := "typed", student_name := "Alex", student_id := "",
    api_key := none, session_id := "s", current_question := 0,
    typed_responses := [], video_responses := [], ai_feedback := [],
    session_questions := ([⟨"A1", "A", "Personal", "QA", "typed", none⟩], []) }

/-- Concrete witness for C6: submitting the non-blank answer `"hi"` on the
last typed question with an unconfigured FeedbackClient and a failing
feedback attempt still appends the record and moves to `video_intro`. -/
theorem c6_feedback_never_blocks_submission_witness :
    0 < c6_state.session_questions.1.length ∧
    ¬ py_strip "hi" = "" ∧
    (submit_typed_answer c6_state "hi" "t" FeedbackAttempt.importError).phase
        = "video_intro" := by
  refine ⟨by decide, by decide, ?_⟩
  obtain ⟨rec, -, -, -, -, -, -, hdone⟩ :=
    c6_feedback_never_blocks_submission c6_state "hi" "t" FeedbackAttempt.importError
      (by decide) (by decide)
  exact (hdone (by decide)).1

/-- C4 counterexample: in `src/updateapp.py`, `load_questions` on a
missing catalog file returns the empty list, not the built-in default set
— so the claim that every absent-file load yields a non-empty usable
catalog is false for that variant (the default set has 2 questions). -/
theorem c4_updateapp_missing_file_yields_empty :
    load_questions_upd FileReadResult.notFound = Except.ok ([] : List Question) ∧
    get_default_questions.length = 2 := by
  exact ⟨rfl, rfl⟩

/-- C4 amended: only the cloud variant falls back to the built-in
(non-empty) default set when the catalog file is absent; the updateapp
variant returns an empty catalog, and read failures other than a missing
file propagate in both variants. -/
theorem c4_absent_catalog_fallback :
    load_questions_cloud FileReadResult.notFound = Except.ok get_default_questions ∧
    get_default_questions ≠ [] ∧
    load_questions_upd FileReadResult.notFound = Except.ok ([] : List Question) ∧
    (∀ m, load_questions_cloud (FileReadResult.unreadable m) = Except.error m) ∧
    (∀ m, load_questions_upd (FileReadResult.unreadable m) = Except.error m) := by
  exact ⟨rfl, by decide, rfl, fun m => rfl, fun m => rfl⟩

/-! ### Timer -/

/-- Python's `int()` conversion: truncation toward zero. -/
def py_int (q : ℚ) : ℤ := if q < 0 then ⌈q⌉ else ⌊q⌋

/-- Starting the 60-second practice timer (part_000 line 493):
`st.session_state[f"timer_end_{idx}"] = time.time() + 60` stores the
expiry instant. -/
def start_timer (now : ℚ) : ℚ := now + 60

/-- The remaining-seconds computation (part_000 line 497):
`remaining = max(0, int(st.session_state[f"timer_end_{idx}"] - time.time()))`,
a pure function of the stored expiry instant and the current clock. -/
def timer_remaining (timer_end now : ℚ) : ℤ := max 0 (py_int (timer_end - now))

/-- Truncation toward zero and flooring agree under an outer `max 0`. -/
theorem max_zero_py_int (q : ℚ) : max 0 (py_int q) = max 0 ⌊q⌋ := by
  unfold py_int
  by_cases h : q < 0
  · rw [if_pos h]
    have hceil : ⌈q⌉ ≤ 0 := Int.ceil_le.mpr (by exact_mod_cast h.le)
    have hfloor : ⌊q⌋ ≤ 0 := le_trans (Int.floor_le_ceil q) hceil
    rw [max_eq_left hceil, max_eq_left hfloor]
  · rw [if_neg h]

/-- C5: the timer's remaining value is a pure function of the current
clock and the stored expiry instant: repeated reads at the same instant
agree, the value decreases monotonically as the clock advances, it is
floored at 0, and a freshly started timer's expiry is the start instant
plus 60 seconds. -/
theorem c5_timer_remaining_pure :
    (∀ e t : ℚ, 0 ≤ timer_remaining e t) ∧
    (∀ e t t' : ℚ, t = t' → timer_remaining e t = timer_remaining e t') ∧
    (∀ e t₁ t₂ : ℚ, t₁ ≤ t₂ → timer_remaining e t₂ ≤ timer_remaining e t₁) ∧
    (∀ s t : ℚ, timer_remaining (start_timer s) t = max 0 (py_int (s + 60 - t))) := by
  refine ⟨fun e t => le_max_left 0 _, fun e t t' h => by rw [h], ?_, fun s t => rfl⟩
  intro e t₁ t₂ h
  unfold timer_remaining
  rw [max_zero_py_int, max_zero_py_int]
  exact max_le_max le_rfl (Int.floor_mono (by linarith))

/-- Concrete witness for C5: a timer started at clock 0 read at clocks 10
and 20.5 — both reads are non-negative and the later read is no larger. -/
theorem c5_timer_remaining_pure_witness :
    (10 : ℚ) ≤ 41 / 2 ∧
    0 ≤ timer_remaining (start_timer 0) 10 ∧
    timer_remaining (start_timer 0) (41 / 2) ≤ timer_remaining (start_timer 0) 10 := by
  refine ⟨by norm_num, c5_timer_remaining_pure.1 (start_timer 0) 10, ?_⟩
  exact c5_timer_remaining_pure.2.2.1 (start_timer 0) 10 (41 / 2) (by norm_num)

/-! ### Persistence -/

/-- The name sanitisation of `save_session_response` (updateapp lines
209-210): `"".join(c for c in student_name if c.isalnum() or c in
(' ', '-', '_')).strip()` followed by `.replace(' ', '_')`.  Python's
Unicode `str.isalnum` is abstracted as the `alnum` predicate. -/
def sanitize_upd (alnum : Char → Bool) (student_name : String) : String :=
  String.mk ((py_strip_chars (student_name.data.filter
    (fun c => alnum c || c = ' ' || c = '-' || c = '_'))).map
    (fun c => if c = ' ' then '_' else c))

/-- The name sanitisation of the cloud variant's `save_session` (part_000
line 174): `"".join(c for c in student_name if c.isalnum() or
c == ' ').strip().replace(' ', '_')`. -/
def sanitize_cloud (alnum : Char → Bool) (student_name : String) : String :=
  String.mk ((py_strip_chars (student_name.data.filter
    (fun c => alnum c || c = ' '))).map
    (fun c => if c = ' ' then '_' else c))

/-- `filename = f"{RESPONSES_DIR}/{timestamp}_{safe_name}.json"` with
`RESPONSES_DIR = "responses"` (both variants). -/
def session_filename (timestamp safe_name : String) : String :=
  "responses/" ++ timestamp ++ "_" ++ safe_name ++ ".json"

/-- The session-data dict handed to the save functions by the completion
pages (typed and video response lists; updateapp's save also reads an
`ai_feedback` list, defaulting to empty). -/
structure SessionData where
  typed_responses : List TypedResponse
  video_responses : List VideoResponse
  ai_feedback : List String
deriving DecidableEq, Repr

/-- The JSON record written by `save_session_response` (updateapp lines
213-220). -/
structure SavedSessionUpd where
  student_name : String
  session_id : String
  session_timestamp : String
  typed_responses : List TypedResponse
  video_responses : List VideoResponse
  ai_feedback : List String
deriving DecidableEq, Repr

/-- The JSON record written by the cloud variant's `save_session`
(part_000 lines 177-182). -/
structure SavedSessionCloud where
  student_name : String
  session_timestamp : String
  typed_responses : List TypedResponse
  video_responses : List VideoResponse
deriving DecidableEq, Repr

/-- Writing a file with `open(filename, 'w')`: the directory maps the name
to the new contents, truncating any previous file of the same name. -/
def write_file {α : Type} (store : List (String × α)) (fn : String) (v : α) :
    List (String × α) :=
  store.filter (fun e => ¬ e.1 = fn) ++ [(fn, v)]

/-- `save_session_response` of `src/updateapp.py` (lines 206-225): derive
the file name from the second-resolution timestamp and the sanitised
student name, build the record and write it; returns the file name and
the updated responses directory.  `now_ts` is
`datetime.now().strftime("%Y%m%d_%H%M%S")` and `now_iso` is
`datetime.now().isoformat()`. -/
def save_session_response (alnum : Char → Bool) (now_ts now_iso : String)
    (student_name : String) (session_data : SessionData)
    (store : List (String × SavedSessionUpd)) :
    String × List (String × SavedSessionUpd) :=
  let safe_name := sanitize_upd alnum student_name
  let filename := session_filename now_ts safe_name
  let save_data : SavedSessionUpd :=
    { student_name := student_name,
      session_id := now_ts ++ "_" ++ safe_name,
      session_timestamp := now_iso,
      typed_responses := session_data.typed_responses,
      video_responses := session_data.video_responses,
      ai_feedback := session_data.ai_feedback }
  (filename, write_file store filename save_data)

/-- `save_session` of the cloud variant (part_000 lines 171-186). -/
def save_session (alnum : Char → Bool) (now_ts now_iso : String)
    (student_name : String) (session_data : SessionData)
    (store : List (String × SavedSessionCloud)) :
    String × List (String × SavedSessionCloud) :=
  let safe_name := sanitize_cloud alnum student_name
  let filename := session_filename now_ts safe_name
  let save_data : SavedSessionCloud :=
    { student_name := student_name,
      session_timestamp := now_iso,
      typed_responses := session_data.typed_responses,
      video_responses := session_data.video_responses }
  (filename, write_file store filename save_data)

/-- `load_all_sessions` of the cloud variant (part_000 lines 189-203):
parse every stored file (in this embedding every stored record is
well-formed) and sort by `session_timestamp`, newest first.  The
`data['filename']` annotation is dropped, as nothing in the claims reads
it. -/
def load_all_sessions (store : List (String × SavedSessionCloud)) :
    List SavedSessionCloud :=
  (store.map Prod.snd).mergeSort
    (fun a b => b.session_timestamp ≤ a.session_timestamp)

/-- C7: round-trip persistence in the cloud variant — saving a completed
session and then loading all sessions yields a stored session whose
`typed_responses` and `video_responses` lists are exactly the saved lists
(the store only sorts whole sessions by timestamp; it never touches the
response lists). -/
theorem c7_save_load_round_trip (alnum : Char → Bool) (now_ts now_iso : String)
    (student_name : String) (session_data : SessionData)
    (store : List (String × SavedSessionCloud)) :
    ∃ s ∈ load_all_sessions
        (save_session alnum now_ts now_iso student_name session_data store).2,
      s.student_name = student_name ∧
      s.session_timestamp = now_iso ∧
      s.typed_responses = session_data.typed_responses ∧
      s.video_responses = session_data.video_responses := by
  refine ⟨{ student_name := student_name, session_timestamp := now_iso,
            typed_responses := session_data.typed_responses,
            video_responses := session_data.video_responses },
    ?_, rfl, rfl, rfl, rfl⟩
  unfold load_all_sessions save_session write_file
  apply (List.mergeSort_perm _ _).mem_iff.mpr
  simp

/-- Strings with equal character data are equal. -/
theorem string_data_inj {a b : String} (h : a.data = b.data) : a = b := by
  cases a
  cases b
  simp at h
  rw [h]

/-- The session file name determines the timestamp, given that the two
timestamps have the same length (as `strftime("%Y%m%d_%H%M%S")` outputs
always do). -/
theorem session_filename_inj (ts₁ ts₂ s₁ s₂ : String)
    (hlen : ts₁.length = ts₂.length)
    (h : session_filename ts₁ s₁ = session_filename ts₂ s₂) : ts₁ = ts₂ := by
  unfold session_filename at h
  have hd : ("responses/" ++ ts₁ ++ "_" ++ s₁ ++ ".json").data
      = ("responses/" ++ ts₂ ++ "_" ++ s₂ ++ ".json").data := by rw [h]
  simp only [String.data_append, List.append_assoc] at hd
  have hd' := List.append_cancel_left hd
  have hts : ts₁.data = ts₂.data := (List.append_inj hd' hlen).1
  exact string_data_inj hts

/-- C8 counterexample: two saves within the same wall-clock second for the
same student name derive the same file name, and the second save
overwrites the first record — after both saves the store holds only the
second session.  Save identifiers are therefore not always distinct. -/
theorem c8_same_second_save_overwrites :
    (save_session_response Char.isAlphanum "20250101_120000" "2025-01-01T12:00:00"
        "Alex" ⟨[⟨"A1", "QA", "hello", 1, none, none⟩], [], []⟩ []).1
      = (save_session_response Char.isAlphanum "20250101_120000" "2025-01-01T12:00:01"
          "Alex" ⟨[], [], []⟩
          (save_session_response Char.isAlphanum "20250101_120000" "2025-01-01T12:00:00"
            "Alex" ⟨[⟨"A1", "QA", "hello", 1, none, none⟩], [], []⟩ []).2).1 ∧
    ((save_session_response Char.isAlphanum "20250101_120000" "2025-01-01T12:00:01"
        "Alex" ⟨[], [], []⟩
        (save_session_response Char.isAlphanum "20250101_120000" "2025-01-01T12:00:00"
          "Alex" ⟨[⟨"A1", "QA", "hello", 1, none, none⟩], [], []⟩ []).2).2).map Prod.snd
      = [⟨"Alex", "20250101_120000_Alex", "2025-01-01T12:00:01", [], [], []⟩] := by
  exact ⟨rfl, rfl⟩

/-- C8 amended: two save operations whose second-resolution timestamps
differ (as equal-length `strftime` strings) target distinct file names,
and the second save leaves the first save's record in place — history is
append-only across distinct timestamps. -/
theorem c8_distinct_timestamps_append_only (alnum : Char → Bool)
    (ts₁ ts₂ iso₁ iso₂ n₁ n₂ : String) (sd₁ sd₂ : SessionData)
    (store : List (String × SavedSessionUpd))
    (hne : ts₁ ≠ ts₂) (hlen : ts₁.length = ts₂.length) :
    (save_session_response alnum ts₁ iso₁ n₁ sd₁ store).1
        ≠ (save_session_response alnum ts₂ iso₂ n₂ sd₂
            (save_session_response alnum ts₁ iso₁ n₁ sd₁ store).2).1 ∧
    ∃ d, ((save_session_response alnum ts₁ iso₁ n₁ sd₁ store).1, d)
          ∈ (save_session_response alnum ts₁ iso₁ n₁ sd₁ store).2 ∧
        ((save_session_response alnum ts₁ iso₁ n₁ sd₁ store).1, d)
          ∈ (save_session_response alnum ts₂ iso₂ n₂ sd₂
              (save_session_response alnum ts₁ iso₁ n₁ sd₁ store).2).2 := by
  have hfn : session_filename ts₁ (sanitize_upd alnum n₁)
      ≠ session_filename ts₂ (sanitize_upd alnum n₂) := by
    intro h
    exact hne (session_filename_inj ts₁ ts₂ _ _ hlen h)
  constructor
  · exact hfn
  · refine ⟨{ student_name := n₁,
              session_id := ts₁ ++ "_" ++ sanitize_upd alnum n₁,
              session_timestamp := iso₁,
              typed_responses := sd₁.typed_responses,
              video_responses := sd₁.video_responses,
              ai_feedback := sd₁.ai_feedback }, ?_, ?_⟩
    · unfold save_session_response write_file
      exact List.mem_append_right _ (by simp)
    · unfold save_session_response write_file
      refine List.mem_append_left _ (List.mem_filter.mpr ⟨?_, by simpa using hfn⟩)
      exact List.mem_append_right _ (by simp)

/-- Concrete witness for the amended C8: saves at two consecutive seconds
produce distinct file names. -/
theorem c8_distinct_timestamps_append_only_witness :
    ("20250101_120000" : String) ≠ "20250101_120001" ∧
    ("20250101_120000" : String).length = ("20250101_120001" : String).length ∧
    (save_session_response Char.isAlphanum "20250101_120000" "i1" "Alex"
        ⟨[], [], []⟩ []).1
      ≠ (save_session_response Char.isAlphanum "20250101_120001" "i2" "Bob"
          ⟨[], [], []⟩
          (save_session_response Char.isAlphanum "20250101_120000" "i1" "Alex"
            ⟨[], [], []⟩ []).2).1 := by
  refine ⟨by decide, by decide, ?_⟩
  exact (c8_distinct_timestamps_append_only Char.isAlphanum
    "20250101_120000" "20250101_120001" "i1" "i2" "Alex" "Bob"
    ⟨[], [], []⟩ ⟨[], [], []⟩ [] (by decide) (by decide)).1

/-! ### CSV export -/

/-- `export_to_csv` of the cloud variant (part_000 lines 237-263),
modelled as a list of rows of cells: the 6-column header, then one row per
typed response (feedback cell from `ai_feedback`, defaulting to empty) and
one row per video response (empty feedback cell), per session. -/
def export_to_csv (sessions : List SavedSessionCloud) : List (List String) :=
  [["Student", "Date", "Type", "Question", "Response", "Feedback"]] ++
  sessions.flatMap (fun s =>
    s.typed_responses.map (fun r =>
      [s.student_name, s.session_timestamp.take 10, "Typed",
       r.question, r.response, r.ai_feedback.getD ""]) ++
    s.video_responses.map (fun r =>
      [s.student_name, s.session_timestamp.take 10, "Video",
       r.question, r.notes, ""]))

/-- `export_sessions_to_csv` of `src/updateapp.py` (lines 297-328): a
7-column header including `Question ID`, typed rows with their feedback,
and video rows whose Response cell is the literal `[Video Recording]` and
whose final cell holds the student's notes. -/
def export_sessions_to_csv (sessions : List SavedSessionUpd) : List (List String) :=
  [["Student Name", "Session Date", "Question Type", "Question ID",
    "Question", "Response", "AI Feedback"]] ++
  sessions.flatMap (fun s =>
    s.typed_responses.map (fun r =>
      [s.student_name, s.session_timestamp.take 10, "Typed", r.question_id,
       r.question, r.response, r.ai_feedback.getD ""]) ++
    s.video_responses.map (fun r =>
      [s.student_name, s.session_timestamp.take 10, "Video", r.question_id,
       r.question, "[Video Recording]", r.notes]))

/-- C9 counterexample: the updateapp exporter's header row is
`Student Name, Session Date, Question Type, Question ID, Question,
Response, AI Feedback`, not the claimed
`Student, Date, Type, Question, Response, Feedback` (shown on the empty
session list). -/
theorem c9_updateapp_header_differs :
    export_sessions_to_csv [] = [["Student Name", "Session Date", "Question Type",
      "Question ID", "Question", "Response", "AI Feedback"]] ∧
    ¬ (["Student Name", "Session Date", "Question Type", "Question ID", "Question",
        "Response", "AI Feedback"]
       = ["Student", "Date", "Type", "Question", "Response", "Feedback"]) := by
  exact ⟨rfl, by decide⟩

/-- C9 amended: the cloud exporter produces exactly the claimed header
`Student, Date, Type, Question, Response, Feedback`; both exporters emit
one row per response, so each export's row count is one (the header) plus
the sum over the given sessions of their typed and video response
counts. -/
theorem c9_export_one_row_per_response (cloud_sessions : List SavedSessionCloud)
    (upd_sessions : List SavedSessionUpd) :
    (export_to_csv cloud_sessions).head? =
      some ["Student", "Date", "Type", "Question", "Response", "Feedback"] ∧
    (export_to_csv cloud_sessions).length =
      1 + (cloud_sessions.map
        (fun s => s.typed_responses.length + s.video_responses.length)).sum ∧
    (export_sessions_to_csv upd_sessions).length =
      1 + (upd_sessions.map
        (fun s => s.typed_responses.length + s.video_responses.length)).sum := by
  refine ⟨rfl, ?_, ?_⟩
  · simp [export_to_csv, List.length_flatMap, Function.comp_def, Nat.add_comm]
  · simp [export_sessions_to_csv, List.length_flatMap, Function.comp_def, Nat.add_comm]

/-! ### Sanitised file names (C10) -/

/-- Dropping a prefix keeps only original elements. -/
theorem dropWhile_subset_chars (p : Char → Bool) (l : List Char) :
    ∀ c ∈ l.dropWhile p, c ∈ l := fun _ hc => (List.dropWhile_sublist p).subset hc

/-- `py_strip_chars` only removes characters. -/
theorem py_strip_chars_subset (l : List Char) : ∀ c ∈ py_strip_chars l, c ∈ l := by
  intro c hc
  unfold py_strip_chars at hc
  have h1 := List.mem_reverse.mp hc
  have h2 := dropWhile_subset_chars _ _ c h1
  have h3 := List.mem_reverse.mp h2
  exact dropWhile_subset_chars _ _ c h3

/-- C10: for every student name and every alphanumeric predicate that
rejects `/`, `.` and `\` (as Python's Unicode `str.isalnum` does, those
being punctuation), each character of the sanitised name is alphanumeric,
an underscore or (updateapp only) a dash — in particular never a path
separator or a dot, so the session file always lands directly inside the
`responses` directory. -/
theorem c10_sanitized_name_safe (alnum : Char → Bool)
    (h1 : alnum '/' = false) (h2 : alnum '.' = false) (h3 : alnum '\\' = false) :
    (∀ name : String, ∀ c ∈ (sanitize_upd alnum name).data,
      (alnum c = true ∨ c = '_' ∨ c = '-') ∧ ¬ c = '/' ∧ ¬ c = '.' ∧ ¬ c = '\\') ∧
    (∀ name : String, ∀ c ∈ (sanitize_cloud alnum name).data,
      (alnum c = true ∨ c = '_') ∧ ¬ c = '/' ∧ ¬ c = '.' ∧ ¬ c = '\\') := by
  have hsafe : ∀ a : Char, alnum a = true → ¬ a = '/' ∧ ¬ a = '.' ∧ ¬ a = '\\' := by
    intro a ha
    refine ⟨?_, ?_, ?_⟩ <;> intro heq <;> subst heq
    · rw [h1] at ha; exact Bool.false_ne_true ha
    · rw [h2] at ha; exact Bool.false_ne_true ha
    · rw [h3] at ha; exact Bool.false_ne_true ha
  constructor
  · intro name c hc
    simp only [sanitize_upd] at hc
    obtain ⟨a, ha, rfl⟩ := List.mem_map.mp hc
    have ha' := py_strip_chars_subset _ a ha
    have hpred := (List.mem_filter.mp ha').2
    simp only [Bool.or_eq_true, decide_eq_true_eq] at hpred
    by_cases hsp : a = ' '
    · subst hsp
      simp only [if_pos rfl]
      exact ⟨Or.inr (Or.inl rfl), by decide, by decide, by decide⟩
    · rw [if_neg hsp]
      rcases hpred with ((hal | hs) | hd) | hu
      · exact ⟨Or.inl hal, hsafe a hal⟩
      · exact absurd hs hsp
      · subst hd; exact ⟨Or.inr (Or.inr rfl), by decide, by decide, by decide⟩
      · subst hu; exact ⟨Or.inr (Or.inl rfl), by decide, by decide, by decide⟩
  · intro name c hc
    simp only [sanitize_cloud] at hc
    obtain ⟨a, ha, rfl⟩ := List.mem_map.mp hc
    have ha' := py_strip_chars_subset _ a ha
    have hpred := (List.mem_filter.mp ha').2
    simp only [Bool.or_eq_true, decide_eq_true_eq] at hpred
    by_cases hsp : a = ' '
    · subst hsp
      simp only [if_pos rfl]
      exact ⟨Or.inr rfl, by decide, by decide, by decide⟩
    · rw [if_neg hsp]
      rcases hpred with hal | hs
      · exact ⟨Or.inl hal, hsafe a hal⟩
      · exact absurd hs hsp

/-- Concrete witness for C10: sanitising `"a/b.c d"` under ASCII
`Char.isAlphanum` keeps the letter `a`, which the theorem certifies is not
a path separator. -/
theorem c10_sanitized_name_safe_witness :
    Char.isAlphanum '/' = false ∧
    ('a' : Char) ∈ (sanitize_upd Char.isAlphanum "a/b.c d").data ∧
    ¬ ('a' : Char) = '/' := by
  refine ⟨by decide, by decide, ?_⟩
  exact ((c10_sanitized_name_safe Char.isAlphanum (by decide) (by decide)
    (by decide)).1 "a/b.c d" 'a' (by decide)).2.1

end InterviewSim
